import Mathlib

/-!
# Verification of the jiro learning-coach core

Shallow embedding of the spaced-repetition engine (`src/learning/planner.py`),
the error-pattern aggregator (`src/learning/planner.py`), the daily-question
scheduler job (`src/bot/scheduler.py` together with
`src/learning/question_generator.py`), the daily-question store operations
(`src/db/models.py`) and the voice-turn pipeline (`src/bot/handlers.py`).

Python floats are modelled as exact rationals (`ℚ`); Python's `round`
(banker's rounding, half to even) is modelled by `roundHalfEven`, and
`round(x, 2)` by `round2`.  Machine integers are `ℤ`.  Fallible collaborator
calls (the LLM client, speech synthesis, transcription) are parameters of
`Except Unit` type: `.error ()` models a raised exception.
-/

namespace Jiro

/-- Python's `round(x)`: nearest integer, ties to even (banker's rounding). -/
def roundHalfEven (x : ℚ) : ℤ :=
  if x - (⌊x⌋ : ℚ) < 1/2 then ⌊x⌋
  else if 1/2 < x - (⌊x⌋ : ℚ) then ⌊x⌋ + 1
  else if ⌊x⌋ % 2 = 0 then ⌊x⌋ else ⌊x⌋ + 1

/-- Python's `round(x, 2)`: round to two decimal places, ties to even. -/
def round2 (x : ℚ) : ℚ := (roundHalfEven (x * 100) : ℚ) / 100

theorem floor_le_roundHalfEven (x : ℚ) : ⌊x⌋ ≤ roundHalfEven x := by
  unfold roundHalfEven
  split_ifs <;> omega

/-- One row of the `learning_items` table, as read and written by
`LearningPlanner.review_item`.  Dates are day numbers (`ℤ`). -/
structure LearningItem where
  easiness : ℚ
  interval_days : ℤ
  next_due : ℤ
  last_reviewed : Option ℤ
deriving Repr, DecidableEq

/-- The SM-2 transition of `LearningPlanner.review_item`
(`src/learning/planner.py` lines 40-67), applied to an item that was found
in the store.  `quality` is passed through unvalidated, exactly as in the
source.  `today` is the current date as a day number. -/
def reviewItem (item : LearningItem) (quality : ℤ) (today : ℤ) : LearningItem :=
  let interval : ℤ :=
    if quality < 3 then
      1
    else if item.interval_days = 1 then
      3
    else if item.interval_days = 3 then
      7
    else
      roundHalfEven ((item.interval_days : ℚ) * item.easiness)
  let easiness : ℚ :=
    item.easiness + (1/10 - ((5 : ℚ) - quality) * (8/100 + ((5 : ℚ) - quality) * (2/100)))
  let easiness := max (13/10) easiness
  { easiness := round2 easiness
    interval_days := interval
    next_due := today + interval
    last_reviewed := some today }

/-- A single-item view of the store-level call `review_item(item_id, quality)`:
an unknown id leaves the store untouched (the early `return`), a known id
replaces the row by the SM-2 transition. -/
def reviewItemCall (store : List (ℕ × LearningItem)) (item_id : ℕ) (quality : ℤ)
    (today : ℤ) : List (ℕ × LearningItem) :=
  if store.all (fun p => p.1 ≠ item_id) then
    store
  else
    store.map (fun p => if p.1 = item_id then (p.1, reviewItem p.2 quality today) else p)

/-- A fresh item as inserted by `Models.add_learning_item`:
easiness 2.5, interval 1 day. -/
def freshItem (d : ℤ) : LearningItem :=
  { easiness := 5/2, interval_days := 1, next_due := d, last_reviewed := none }

/-- One entry of a grade's `issues` list: the issue dict's `"type"` key
(`none` when the key is absent; `issue.get("type", "unknown")`). -/
structure Issue where
  issueType : Option String
deriving Repr, DecidableEq

/-- One row of the `grades` table as seen by `update_error_patterns`:
only the `issues` field matters there.  `none` models an `issues` string
that fails to parse as JSON (the `continue` branch). -/
structure Grade where
  issues : Option (List Issue)
deriving Repr, DecidableEq

/-- The key under which an issue is counted:
`issue.get("type", "unknown")`. -/
def issueKey (i : Issue) : String := i.issueType.getD "unknown"

/-- Number of occurrences of tag `k` contributed by one grade. -/
def gradeTagCount (g : Grade) (k : String) : ℕ :=
  match g.issues with
  | none => 0
  | some issues => (issues.filter (fun i => issueKey i == k)).length

/-- `pattern_counts[k]` after the scan loop of
`LearningPlanner.update_error_patterns`: one increment per issue whose type
is `k`, across every grade of the window. -/
def patternCounts (grades : List Grade) (k : String) : ℕ :=
  (grades.map (fun g => gradeTagCount g k)).sum

/-- The map written back: only tags seen at least twice are retained
(`{k: v for k, v in pattern_counts.items() if v >= 2}`). -/
def aggregatePatterns (grades : List Grade) : String → Option ℕ :=
  fun k => if 2 ≤ patternCounts grades k then some (patternCounts grades k) else none

/-- The `user_profile` fields touched by the scheduler and the aggregator.
The recurring-pattern map is modelled as a partial function from tag to
count. -/
structure UserProfile where
  streak_count : ℤ
  last_active : Option String
  recurring_error_patterns : String → Option ℕ
  learner_summary : String

/-- `LearningPlanner.update_error_patterns`: computes the window's pattern
map and stores it via `update_user`, overwriting the previous map. -/
def updateErrorPatterns (u : UserProfile) (grades : List Grade) : UserProfile :=
  { u with recurring_error_patterns := aggregatePatterns grades }

theorem le_round2_of_le (x : ℚ) (h : 13/10 ≤ x) : 13/10 ≤ round2 x := by
  unfold round2
  have h2 : ((130 : ℤ) : ℚ) ≤ x * 100 := by push_cast; linarith
  have h3 : (130 : ℤ) ≤ ⌊x * 100⌋ := Int.le_floor.mpr h2
  have h4 : (130 : ℤ) ≤ roundHalfEven (x * 100) :=
    le_trans h3 (floor_le_roundHalfEven _)
  have h5 : ((130 : ℤ) : ℚ) ≤ (roundHalfEven (x * 100) : ℚ) := by exact_mod_cast h4
  push_cast at h5
  linarith

/-- C7: for every item state and every quality input (validated or not), the
easiness factor stored by `review_item` is at least 1.3. -/
theorem review_easiness_ge_floor (item : LearningItem) (quality today : ℤ) :
    13/10 ≤ (reviewItem item quality today).easiness := by
  unfold reviewItem
  exact le_round2_of_le _ (le_max_left _ _)

/-- C1 counterexample: starting from a fresh item (easiness 2.5, interval 1),
three `review_item` calls with quality 5 leave the interval at 19 days, not
the 18 = round(7×2.5) the claim states — the easiness used by the
multiplicative step has already grown to 2.7 by the third success. -/
theorem review_fourth_interval_ne_18 :
    (reviewItem (reviewItem (reviewItem (freshItem 0) 5 0) 5 0) 5 0).interval_days ≠ 18 := by
  norm_num [reviewItem, freshItem, round2, roundHalfEven]

/-- C1 (amended): starting from a fresh learning item (easiness 2.5,
interval 1 day), repeated quality-5 reviews produce the interval sequence
1, 3, 7, then round(7×2.7) = 19 days on the fourth value, because each
quality-5 review first raises the stored easiness by 0.1 (2.5 → 2.6 → 2.7)
before the multiplicative step applies. -/
theorem review_interval_sequence (d t0 t1 t2 : ℤ) :
    (freshItem d).interval_days = 1 ∧
    (reviewItem (freshItem d) 5 t0).interval_days = 3 ∧
    (reviewItem (reviewItem (freshItem d) 5 t0) 5 t1).interval_days = 7 ∧
    (reviewItem (reviewItem (reviewItem (freshItem d) 5 t0) 5 t1) 5 t2).interval_days = 19 := by
  refine ⟨rfl, ?_, ?_, ?_⟩ <;>
    norm_num [reviewItem, freshItem, round2, roundHalfEven]

/-- C2: the code violates the claim — `review_item` performs no range check
on `quality`, so an out-of-range quality (here 6) mutates the item: easiness
2.5 → 2.66 and interval 1 → 3, and the store row is rewritten. -/
theorem review_out_of_range_quality_mutates :
    reviewItemCall [(1, freshItem 0)] 1 6 0 ≠ [(1, freshItem 0)] ∧
    (reviewItem (freshItem 0) 6 0).easiness = 133/50 ∧
    (reviewItem (freshItem 0) 6 0).interval_days = 3 := by
  refine ⟨?_, ?_, ?_⟩ <;>
    norm_num [reviewItemCall, reviewItem, freshItem, round2, roundHalfEven,
      LearningItem.mk.injEq]

/-- One question as returned by the LLM question-generation call.
An empty `question_jp` models a missing or empty `"question_jp"` key
(the falsy check `if not q.get("question_jp"): continue`). -/
structure RawQuestion where
  question_jp : String
  question_en : String
  target_skills : List String
deriving Repr, DecidableEq

/-- `QuestionGenerator.generate_daily_questions`: returns `[]` when the user
row is missing, otherwise forwards to the LLM call (whose exception
propagates) and keeps only questions with a non-empty `question_jp`.
Storage of the kept questions is tracked separately (see `QOp.add`). -/
def generateDailyQuestions (user : Option UserProfile)
    (claudeGen : ℕ → Except Unit (List RawQuestion)) (count : ℕ) :
    Except Unit (List RawQuestion) :=
  match user with
  | none => .ok []
  | some _ =>
    match claudeGen count with
    | .error e => .error e
    | .ok qs => .ok (qs.filter (fun q => !(q.question_jp == "")))

/-- The `days_absent` computation of `SchedulerManager._daily_questions_job`:
0 when `last_active` is falsy (NULL or empty) or fails to parse as a
timestamp; otherwise the floor of the elapsed seconds divided by one day
(`timedelta.days`).  `parseTs` abstracts `datetime.fromisoformat`, `none`
modelling a raised `ValueError`/`TypeError`; times are seconds. -/
def daysAbsent (lastActive : Option String) (parseTs : String → Option ℤ)
    (now : ℤ) : ℤ :=
  match lastActive with
  | none => 0
  | some s =>
    if s = "" then 0
    else
      match parseTs s with
      | none => 0
      | some t => Int.fdiv (now - t) 86400

/-- Observable outcome of one `_daily_questions_job` firing with an existing
user row: the count requested from the generator, the stored profile, the
questions listed in the sent message, and whether a message was sent. -/
structure JobOutcome where
  requested : ℕ
  profile : UserProfile
  sent : List RawQuestion
  messageSent : Bool

/-- `SchedulerManager._daily_questions_job` for a user whose profile row
exists (the missing-row guard is an immediate no-op return).  A generator
exception is caught by the job's `try/except` (logged, nothing else done);
an empty result hits `if not questions: return`.  Otherwise the streak is
updated from the same `days_absent` snapshot and the message is sent; the
chat transport send is modelled as succeeding. -/
def dailyQuestionsJob (u : UserProfile) (parseTs : String → Option ℤ)
    (now : ℤ) (claudeGen : ℕ → Except Unit (List RawQuestion)) : JobOutcome :=
  let da := daysAbsent u.last_active parseTs now
  let count : ℕ := if 3 ≤ da then 1 else 3
  match generateDailyQuestions (some u) claudeGen count with
  | .error _ => ⟨count, u, [], false⟩
  | .ok [] => ⟨count, u, [], false⟩
  | .ok (q :: qs) =>
    let streak := if da ≤ 1 then u.streak_count + 1 else 1
    ⟨count, { u with streak_count := streak }, q :: qs, true⟩

/-- The window of the claim's example: tag "grammar" appears exactly twice
and "vocab" once, spread over two grades. -/
def exampleWindow : List Grade :=
  [⟨some [⟨some "grammar"⟩, ⟨some "vocab"⟩]⟩, ⟨some [⟨some "grammar"⟩]⟩]

/-- A profile with schema defaults (streak 0, `last_active` NULL, empty
pattern map, empty summary). -/
def defaultProfile : UserProfile :=
  ⟨0, none, fun _ => none, ""⟩

/-- C6: the aggregator counts one occurrence per issue-type tag per issue,
stores exactly the tags counted at least twice (with their counts), the
stored map replaces the previous one (it does not depend on it), and on the
example window — "grammar" twice, "vocab" once — the result maps "grammar"
to 2 and nothing else. -/
theorem update_error_patterns_spec :
    (∀ (u₁ u₂ : UserProfile) (grades : List Grade),
      (updateErrorPatterns u₁ grades).recurring_error_patterns
        = (updateErrorPatterns u₂ grades).recurring_error_patterns) ∧
    (∀ (u : UserProfile) (grades : List Grade) (k : String) (n : ℕ),
      (updateErrorPatterns u grades).recurring_error_patterns k = some n ↔
        (patternCounts grades k = n ∧ 2 ≤ n)) ∧
    (∀ u : UserProfile,
      (updateErrorPatterns u exampleWindow).recurring_error_patterns "grammar"
        = some 2 ∧
      ∀ k : String, k ≠ "grammar" →
        (updateErrorPatterns u exampleWindow).recurring_error_patterns k = none) := by
  refine ⟨fun _ _ _ => rfl, ?_, ?_⟩
  · intro u grades k n
    show (if 2 ≤ patternCounts grades k then some (patternCounts grades k) else none)
        = some n ↔ _
    split_ifs with h
    · simp only [Option.some.injEq]
      constructor
      · rintro rfl; exact ⟨rfl, h⟩
      · rintro ⟨rfl, _⟩; rfl
    · simp only [reduceCtorEq, false_iff, not_and]
      rintro rfl h2
      exact h h2
  · intro u
    constructor
    · show aggregatePatterns exampleWindow "grammar" = some 2
      decide
    · intro k hk
      show aggregatePatterns exampleWindow k = none
      by_cases hv : k = "vocab"
      · subst hv; decide
      · have hg : (("grammar" : String) == k) = false :=
          beq_eq_false_iff_ne.mpr (Ne.symm hk)
        have hvb : (("vocab" : String) == k) = false :=
          beq_eq_false_iff_ne.mpr (Ne.symm hv)
        have hcount : patternCounts exampleWindow k = 0 := by
          simp [patternCounts, exampleWindow, gradeTagCount, issueKey,
            List.filter, hg, hvb]
        simp [aggregatePatterns, hcount]

/-- Witness for C6 on concrete inputs. -/
theorem update_error_patterns_spec_witness :
    (updateErrorPatterns defaultProfile exampleWindow).recurring_error_patterns
      "grammar" = some 2 ∧
    (updateErrorPatterns defaultProfile exampleWindow).recurring_error_patterns
      "vocab" = none :=
  ⟨(update_error_patterns_spec.2.2 defaultProfile).1,
   (update_error_patterns_spec.2.2 defaultProfile).2 "vocab" (by decide)⟩

/-- C3 counterexample: a run with missing last-active in which the
question-generation call raises computes days-absent 0, but sends nothing
and leaves the streak alone — so "generates 3 questions and increments the
streak" does not hold of *every* such run. -/
theorem daily_job_missing_last_active_counterexample :
    (⟨1, none, fun _ => none, ""⟩ : UserProfile).last_active = none ∧
    daysAbsent (⟨1, none, fun _ => none, ""⟩ : UserProfile).last_active
      (fun _ => none) 0 = 0 ∧
    (dailyQuestionsJob ⟨1, none, fun _ => none, ""⟩ (fun _ => none) 0
      (fun _ => .error ())).sent.length ≠ 3 ∧
    (dailyQuestionsJob ⟨1, none, fun _ => none, ""⟩ (fun _ => none) 0
      (fun _ => .error ())).profile.streak_count ≠ 1 + 1 := by
  refine ⟨rfl, rfl, ?_, ?_⟩ <;> decide

/-- C3 (amended): when the stored last-active value is missing (NULL or
empty) or fails to parse as a timestamp, the daily job computes days-absent
as 0 and requests 3 questions; provided the generation call succeeds with 3
valid questions, it sends the 3 questions and increments the streak rather
than treating the learner as absent. -/
theorem daily_job_missing_last_active
    (u : UserProfile) (parseTs : String → Option ℤ) (now : ℤ)
    (claudeGen : ℕ → Except Unit (List RawQuestion))
    (hla : u.last_active = none ∨
      ∃ s, u.last_active = some s ∧ (s = "" ∨ parseTs s = none))
    (qs : List RawQuestion) (hgen : claudeGen 3 = .ok qs)
    (hlen : qs.length = 3) (hvalid : ∀ q ∈ qs, q.question_jp ≠ "") :
    daysAbsent u.last_active parseTs now = 0 ∧
    (dailyQuestionsJob u parseTs now claudeGen).requested = 3 ∧
    (dailyQuestionsJob u parseTs now claudeGen).sent.length = 3 ∧
    (dailyQuestionsJob u parseTs now claudeGen).profile.streak_count
      = u.streak_count + 1 := by
  have hda : daysAbsent u.last_active parseTs now = 0 := by
    rcases hla with h | ⟨s, hs, h⟩
    · simp [daysAbsent, h]
    · rcases h with h | h <;> simp [daysAbsent, hs, h]
  have hfilter : qs.filter (fun q => !(q.question_jp == "")) = qs :=
    List.filter_eq_self.mpr (fun q hq => by simp [hvalid q hq])
  obtain ⟨a, b, c, rfl⟩ := List.length_eq_three.mp hlen
  refine ⟨hda, ?_⟩
  simp only [dailyQuestionsJob, generateDailyQuestions, hda]
  norm_num [hgen, hfilter]

/-- Witness for C3 on concrete inputs. -/
theorem daily_job_missing_last_active_witness :
    daysAbsent defaultProfile.last_active (fun _ => none) 0 = 0 ∧
    (dailyQuestionsJob defaultProfile (fun _ => none) 0
      (fun _ => .ok [⟨"a", "", []⟩, ⟨"b", "", []⟩, ⟨"c", "", []⟩])).requested = 3 ∧
    (dailyQuestionsJob defaultProfile (fun _ => none) 0
      (fun _ => .ok [⟨"a", "", []⟩, ⟨"b", "", []⟩, ⟨"c", "", []⟩])).sent.length = 3 ∧
    (dailyQuestionsJob defaultProfile (fun _ => none) 0
      (fun _ => .ok [⟨"a", "", []⟩, ⟨"b", "", []⟩, ⟨"c", "", []⟩])).profile.streak_count
      = defaultProfile.streak_count + 1 :=
  daily_job_missing_last_active defaultProfile (fun _ => none) 0
    (fun _ => .ok [⟨"a", "", []⟩, ⟨"b", "", []⟩, ⟨"c", "", []⟩])
    (Or.inl rfl) _ rfl rfl (by decide)

/-- C4 counterexample: a daily-job firing in which question generation
returns an empty list writes no streak update at all — here absence is 0
and the prior streak is 5, yet the stored streak stays 5 instead of
becoming 6, so the rule does not hold on *every* firing. -/
theorem daily_job_streak_counterexample :
    daysAbsent (⟨5, none, fun _ => none, ""⟩ : UserProfile).last_active
        (fun _ => none) 0 = 0 ∧
    (dailyQuestionsJob ⟨5, none, fun _ => none, ""⟩ (fun _ => none) 0
        (fun _ => .ok [])).profile.streak_count = 5 ∧
    ¬ (dailyQuestionsJob ⟨5, none, fun _ => none, ""⟩ (fun _ => none) 0
        (fun _ => .ok [])).profile.streak_count = 5 + 1 := by
  refine ⟨rfl, rfl, ?_⟩
  intro h
  simp [dailyQuestionsJob, generateDailyQuestions, daysAbsent] at h

/-- C4 (amended): on every daily-prompt job firing that actually proceeds to
the streak update (question generation succeeded with a nonempty list, so a
message is sent), absence of 0 or 1 day makes the stored streak the prior
streak plus 1, and absence of 2 or more days makes it exactly 1. -/
theorem daily_job_streak_rule
    (u : UserProfile) (parseTs : String → Option ℤ) (now : ℤ)
    (claudeGen : ℕ → Except Unit (List RawQuestion))
    (hsent : (dailyQuestionsJob u parseTs now claudeGen).messageSent = true) :
    (daysAbsent u.last_active parseTs now ≤ 1 →
      (dailyQuestionsJob u parseTs now claudeGen).profile.streak_count
        = u.streak_count + 1) ∧
    (2 ≤ daysAbsent u.last_active parseTs now →
      (dailyQuestionsJob u parseTs now claudeGen).profile.streak_count = 1) := by
  cases hg : generateDailyQuestions (some u) claudeGen
      (if 3 ≤ daysAbsent u.last_active parseTs now then 1 else 3) with
  | error e =>
    simp [dailyQuestionsJob, hg] at hsent
  | ok qs =>
    cases qs with
    | nil => simp [dailyQuestionsJob, hg] at hsent
    | cons q qs =>
      constructor
      · intro h1
        simp [dailyQuestionsJob, hg, h1]
      · intro h2
        have hn : ¬ daysAbsent u.last_active parseTs now ≤ 1 := by omega
        simp [dailyQuestionsJob, hg, hn]

/-- Witness for C4 (amended) on concrete inputs: an absent-0 firing
increments the streak, an absence-200 firing resets it to 1. -/
theorem daily_job_streak_rule_witness :
    (dailyQuestionsJob ⟨5, none, fun _ => none, ""⟩ (fun _ => none) 0
        (fun _ => .ok [⟨"a", "", []⟩])).profile.streak_count = 5 + 1 ∧
    (dailyQuestionsJob ⟨5, some "t", fun _ => none, ""⟩ (fun _ => some 0)
        (200 * 86400) (fun _ => .ok [⟨"a", "", []⟩])).profile.streak_count = 1 :=
  ⟨(daily_job_streak_rule ⟨5, none, fun _ => none, ""⟩ (fun _ => none) 0
      (fun _ => .ok [⟨"a", "", []⟩]) rfl).1 (by decide),
   (daily_job_streak_rule ⟨5, some "t", fun _ => none, ""⟩ (fun _ => some 0)
      (200 * 86400) (fun _ => .ok [⟨"a", "", []⟩]) rfl).2 (by decide)⟩

/-- C5 counterexample: a firing with absence 0 in which the generation call
raises sends 0 questions, not 3 — so the count property does not hold of
*every* firing. -/
theorem daily_job_question_count_counterexample :
    daysAbsent (⟨2, none, fun _ => none, ""⟩ : UserProfile).last_active
      (fun _ => none) 0 < 3 ∧
    (dailyQuestionsJob ⟨2, none, fun _ => none, ""⟩ (fun _ => none) 0
      (fun _ => .error ())).sent.length ≠ 3 ∧
    (dailyQuestionsJob ⟨2, none, fun _ => none, ""⟩ (fun _ => none) 0
      (fun _ => .error ())).messageSent = false := by
  refine ⟨by decide, by decide, rfl⟩

/-- C5 (amended): on every firing in which the LLM question call honours
its contract (returns exactly the requested number of questions, all with a
non-empty prompt), absence ≥ 3 days generates and sends exactly 1 question,
and any other firing generates and sends exactly 3. -/
theorem daily_job_question_count
    (u : UserProfile) (parseTs : String → Option ℤ) (now : ℤ)
    (claudeGen : ℕ → Except Unit (List RawQuestion))
    (hcontract : ∀ c, ∃ qs, claudeGen c = .ok qs ∧ qs.length = c ∧
        ∀ q ∈ qs, q.question_jp ≠ "") :
    (3 ≤ daysAbsent u.last_active parseTs now →
      (dailyQuestionsJob u parseTs now claudeGen).sent.length = 1 ∧
      (dailyQuestionsJob u parseTs now claudeGen).messageSent = true) ∧
    (daysAbsent u.last_active parseTs now < 3 →
      (dailyQuestionsJob u parseTs now claudeGen).sent.length = 3 ∧
      (dailyQuestionsJob u parseTs now claudeGen).messageSent = true) := by
  obtain ⟨qs, hgen, hlen, hval⟩ :=
    hcontract (if 3 ≤ daysAbsent u.last_active parseTs now then 1 else 3)
  have hfilter : qs.filter (fun q => !(q.question_jp == "")) = qs :=
    List.filter_eq_self.mpr (fun q hq => by simp [hval q hq])
  cases qs with
  | nil =>
    exfalso
    simp only [List.length_nil] at hlen
    split at hlen <;> omega
  | cons q rest =>
    constructor
    · intro h3
      rw [if_pos h3] at hlen hgen
      simp [dailyQuestionsJob, generateDailyQuestions, hgen, hfilter, if_pos h3, hlen]
    · intro h3
      have hn : ¬ 3 ≤ daysAbsent u.last_active parseTs now := by omega
      rw [if_neg hn] at hlen hgen
      simp [dailyQuestionsJob, generateDailyQuestions, hgen, hfilter, if_neg hn, hlen]

/-- Witness for C5 on concrete inputs (absence 0, so the 3-question arm). -/
theorem daily_job_question_count_witness :
    (dailyQuestionsJob defaultProfile (fun _ => none) 0
      (fun c => .ok (List.replicate c ⟨"q", "", []⟩))).sent.length = 3 ∧
    (dailyQuestionsJob defaultProfile (fun _ => none) 0
      (fun c => .ok (List.replicate c ⟨"q", "", []⟩))).messageSent = true :=
  (daily_job_question_count defaultProfile (fun _ => none) 0
      (fun c => .ok (List.replicate c ⟨"q", "", []⟩))
      (fun c => ⟨List.replicate c ⟨"q", "", []⟩, rfl, List.length_replicate c _,
        fun q hq => by rw [List.eq_of_mem_replicate hq]; decide⟩)).2
    (by decide)

/-- C10: a daily-job firing in which question generation raises or returns
an empty list sends no message, lists no questions, and leaves the learner
profile — in particular the streak counter — exactly as it was. -/
theorem daily_job_generation_failure
    (u : UserProfile) (parseTs : String → Option ℤ) (now : ℤ)
    (claudeGen : ℕ → Except Unit (List RawQuestion))
    (h : generateDailyQuestions (some u) claudeGen
          (if 3 ≤ daysAbsent u.last_active parseTs now then 1 else 3) = .error () ∨
         generateDailyQuestions (some u) claudeGen
          (if 3 ≤ daysAbsent u.last_active parseTs now then 1 else 3) = .ok []) :
    (dailyQuestionsJob u parseTs now claudeGen).messageSent = false ∧
    (dailyQuestionsJob u parseTs now claudeGen).profile = u ∧
    (dailyQuestionsJob u parseTs now claudeGen).sent = [] := by
  rcases h with h | h <;> simp [dailyQuestionsJob, h]

/-- Witness for C10 on concrete inputs (the generator raises). -/
theorem daily_job_generation_failure_witness :
    (dailyQuestionsJob defaultProfile (fun _ => none) 0
      (fun _ => .error ())).messageSent = false ∧
    (dailyQuestionsJob defaultProfile (fun _ => none) 0
      (fun _ => .error ())).profile = defaultProfile ∧
    (dailyQuestionsJob defaultProfile (fun _ => none) 0
      (fun _ => .error ())).sent = [] :=
  daily_job_generation_failure defaultProfile (fun _ => none) 0
    (fun _ => .error ()) (Or.inl rfl)

/-- One row of the `daily_questions` table.  `created_date` is
`date(created_at)`; `answered_at` is NULL until the prompt is consumed. -/
structure DailyQuestion where
  question_id : ℕ
  user_id : ℤ
  prompt_text : String
  created_date : String
  answered_at : Option String
deriving Repr, DecidableEq

/-- The `daily_questions` table with its auto-increment id counter
(`question_id INTEGER PRIMARY KEY AUTOINCREMENT`: ids are never reused). -/
structure QuestionTable where
  rows : List DailyQuestion
  nextId : ℕ
deriving Repr, DecidableEq

/-- `Models.add_daily_question`: INSERT with a fresh auto-increment id and
NULL `answered_at`. -/
def addDailyQuestion (t : QuestionTable) (uid : ℤ) (text : String)
    (today : String) : QuestionTable :=
  { rows := t.rows ++ [⟨t.nextId, uid, text, today, none⟩]
    nextId := t.nextId + 1 }

/-- `Models.mark_question_answered`: UPDATE setting `answered_at` to the
current time on every row with the given id. -/
def markQuestionAnswered (t : QuestionTable) (qid : ℕ) (now : String) :
    QuestionTable :=
  { t with
    rows := t.rows.map fun r =>
      if r.question_id = qid then { r with answered_at := some now } else r }

/-- `Models.get_unanswered_questions`: today's rows of the user with NULL
`answered_at`. -/
def getUnansweredQuestions (t : QuestionTable) (uid : ℤ) (today : String) :
    List DailyQuestion :=
  t.rows.filter fun r =>
    r.user_id == uid && r.created_date == today && r.answered_at.isNone

/-- The operations that touch the `daily_questions` table anywhere in the
repository: insertion (`add_daily_question`), consumption
(`mark_question_answered`) and the account wipe (`delete_user_data`, which
deletes the user's rows).  No operation ever writes NULL back into
`answered_at`. -/
inductive QOp where
  | add (uid : ℤ) (text : String) (today : String)
  | mark (qid : ℕ) (now : String)
  | wipe (uid : ℤ)
deriving Repr, DecidableEq

def applyQOp (t : QuestionTable) : QOp → QuestionTable
  | .add uid text today => addDailyQuestion t uid text today
  | .mark qid now => markQuestionAnswered t qid now
  | .wipe uid => { t with rows := t.rows.filter fun r => !(r.user_id == uid) }

def applyQOps (t : QuestionTable) (ops : List QOp) : QuestionTable :=
  ops.foldl applyQOp t

/-- Invariant: every row with id `qid` carries a non-null answered
timestamp, and `qid` is below the id counter (so inserts cannot recreate
it unanswered). -/
def MarkedStays (t : QuestionTable) (qid : ℕ) : Prop :=
  qid < t.nextId ∧ ∀ r ∈ t.rows, r.question_id = qid → r.answered_at.isSome

theorem markedStays_mark (t : QuestionTable) (qid : ℕ) (now : String)
    (h : qid < t.nextId) : MarkedStays (markQuestionAnswered t qid now) qid := by
  refine ⟨h, ?_⟩
  intro r hr hid
  simp only [markQuestionAnswered, List.mem_map] at hr
  obtain ⟨r₀, _, rfl⟩ := hr
  by_cases h0 : r₀.question_id = qid
  · simp [h0]
  · simp only [if_neg h0]
    simp only [if_neg h0] at hid
    exact absurd hid h0

theorem markedStays_step (t : QuestionTable) (qid : ℕ) (op : QOp)
    (h : MarkedStays t qid) : MarkedStays (applyQOp t op) qid := by
  obtain ⟨hlt, hrows⟩ := h
  cases op with
  | add uid text today =>
    refine ⟨Nat.lt_succ_of_lt hlt, ?_⟩
    intro r hr hid
    simp only [applyQOp, addDailyQuestion, List.mem_append, List.mem_singleton] at hr
    rcases hr with hr | rfl
    · exact hrows r hr hid
    · exact absurd hid (Nat.ne_of_lt hlt).symm
  | mark qid' now =>
    refine ⟨hlt, ?_⟩
    intro r hr hid
    simp only [applyQOp, markQuestionAnswered, List.mem_map] at hr
    obtain ⟨r₀, hr₀, rfl⟩ := hr
    by_cases h0 : r₀.question_id = qid'
    · simp [h0]
    · simp only [if_neg h0] at hid ⊢
      exact hrows r₀ hr₀ hid
  | wipe uid =>
    refine ⟨hlt, ?_⟩
    intro r hr hid
    exact hrows r (List.mem_of_mem_filter hr) hid

theorem markedStays_ops (t : QuestionTable) (qid : ℕ) (ops : List QOp)
    (h : MarkedStays t qid) : MarkedStays (applyQOps t ops) qid := by
  induction ops generalizing t with
  | nil => exact h
  | cons op ops ih => exact ih _ (markedStays_step t qid op h)

/-- C8: once `mark_question_answered` has run for a prompt id, no later
sequence of table operations makes any row with that id show up in
`get_unanswered_questions` — the answered timestamp is set on marking and
no operation clears it. -/
theorem marked_prompt_never_unanswered
    (t : QuestionTable) (qid : ℕ) (now : String) (ops : List QOp)
    (uid : ℤ) (today : String) (hid : qid < t.nextId) :
    ∀ r ∈ getUnansweredQuestions
        (applyQOps (markQuestionAnswered t qid now) ops) uid today,
      r.question_id ≠ qid := by
  have hinv : MarkedStays (applyQOps (markQuestionAnswered t qid now) ops) qid :=
    markedStays_ops _ qid ops (markedStays_mark t qid now hid)
  intro r hr hcontra
  have hmem := List.mem_of_mem_filter hr
  have hsome := hinv.2 r hmem hcontra
  have hfilter := List.of_mem_filter hr
  simp only [Bool.and_eq_true, Option.isNone_iff_eq_none] at hfilter
  rw [hfilter.2] at hsome
  simp at hsome

/-- Witness for C8 on concrete inputs: a one-row table, the prompt marked,
then another insert and an unrelated mark. -/
theorem marked_prompt_never_unanswered_witness :
    0 < (QuestionTable.mk [⟨0, 7, "p", "2024-01-01", none⟩] 1).nextId ∧
    ∀ r ∈ getUnansweredQuestions
        (applyQOps
          (markQuestionAnswered ⟨[⟨0, 7, "p", "2024-01-01", none⟩], 1⟩ 0 "12:00")
          [.add 7 "p2" "2024-01-01", .mark 1 "13:00"]) 7 "2024-01-01",
      r.question_id ≠ 0 :=
  ⟨by decide,
   marked_prompt_never_unanswered ⟨[⟨0, 7, "p", "2024-01-01", none⟩], 1⟩ 0 "12:00"
     [.add 7 "p2" "2024-01-01", .mark 1 "13:00"] 7 "2024-01-01" (by decide)⟩

/-- The observable steps of `handle_voice`, in execution order.  Events
carry no payload; they name which call site of the handler ran. -/
inductive VoiceEvent where
  | sendLimitMsg
  | sendTooLongMsg
  | typing
  | sttCall
  | sendSttRetryMsg
  | sendNoSpeechMsg
  | storeUserMsg
  | markPromptAnswered
  | claudeCall
  | storeBotMsg
  | storeGrade
  | updateLastActive
  | sendFeedback
  | synthCall
  | sendVoiceReply
  | sendTtsFallback
  | summaryHook
  | sendErrorMsg
deriving Repr, DecidableEq

/-- Python's `str.strip()`: drop leading and trailing whitespace. -/
def pyStrip (s : String) : String :=
  ⟨((s.data.dropWhile Char.isWhitespace).reverse.dropWhile Char.isWhitespace).reverse⟩

/-- The `handle_voice` pipeline as the trace of its observable steps.
Collaborator outcomes are parameters: `stt` is the transcription result,
`grading` the combined LLM call (reply + grades), `tts` the synthesis
attempt; `.error ()` models a raised exception.  The rate-limit and
duration guards run before anything else; an STT failure or empty
transcript replies and stops; a grading failure falls to the outer
`except` (one error reply); a TTS failure is caught locally: the text
feedback was already sent, a text-only fallback notice is sent, and the
turn continues to the summary hook. -/
def handleVoice (dailyCount maxDaily duration maxDuration : ℕ)
    (stt : Except Unit String) (hasPrompt : Bool)
    (grading : Except Unit String) (tts : Except Unit Unit)
    (needsSummary : Bool) : List VoiceEvent :=
  if maxDaily ≤ dailyCount then [.sendLimitMsg]
  else if duration ≠ 0 ∧ maxDuration < duration then [.sendTooLongMsg]
  else
    match stt with
    | .error _ => [.typing, .sttCall, .sendSttRetryMsg]
    | .ok transcript =>
      if pyStrip transcript = "" then [.typing, .sttCall, .sendNoSpeechMsg]
      else
        [.typing, .sttCall, .storeUserMsg] ++
        (if hasPrompt then [.markPromptAnswered] else []) ++
        match grading with
        | .error _ => [.claudeCall, .sendErrorMsg]
        | .ok _ =>
          [.claudeCall, .storeBotMsg, .storeGrade, .updateLastActive,
            .sendFeedback, .synthCall] ++
          (match tts with
            | .ok _ => [.sendVoiceReply]
            | .error _ => [.sendTtsFallback]) ++
          (if needsSummary then [.summaryHook] else [])

/-- C9: on a voice turn that passes the guards and grades successfully but
whose speech synthesis raises, the textual feedback is sent strictly before
the synthesis attempt, a text-only fallback notice is sent, no voice reply
and no turn-level error reply occur, and the post-turn summary hook still
runs — the turn completes. -/
theorem voice_turn_tts_failure
    (dailyCount maxDaily duration maxDuration : ℕ)
    (transcript reply : String) (hasPrompt needsSummary : Bool)
    (hrate : dailyCount < maxDaily)
    (hdur : duration = 0 ∨ duration ≤ maxDuration)
    (htr : ¬ pyStrip transcript = "") :
    VoiceEvent.sendFeedback ∈ handleVoice dailyCount maxDaily duration maxDuration
      (.ok transcript) hasPrompt (.ok reply) (.error ()) needsSummary ∧
    VoiceEvent.sendTtsFallback ∈ handleVoice dailyCount maxDaily duration maxDuration
      (.ok transcript) hasPrompt (.ok reply) (.error ()) needsSummary ∧
    VoiceEvent.sendVoiceReply ∉ handleVoice dailyCount maxDaily duration maxDuration
      (.ok transcript) hasPrompt (.ok reply) (.error ()) needsSummary ∧
    VoiceEvent.sendErrorMsg ∉ handleVoice dailyCount maxDaily duration maxDuration
      (.ok transcript) hasPrompt (.ok reply) (.error ()) needsSummary ∧
    (needsSummary = true →
      VoiceEvent.summaryHook ∈ handleVoice dailyCount maxDaily duration maxDuration
        (.ok transcript) hasPrompt (.ok reply) (.error ()) needsSummary) ∧
    (handleVoice dailyCount maxDaily duration maxDuration
        (.ok transcript) hasPrompt (.ok reply) (.error ()) needsSummary).count
      .sendFeedback = 1 ∧
    (handleVoice dailyCount maxDaily duration maxDuration
        (.ok transcript) hasPrompt (.ok reply) (.error ()) needsSummary).count
      .synthCall = 1 ∧
    (handleVoice dailyCount maxDaily duration maxDuration
        (.ok transcript) hasPrompt (.ok reply) (.error ()) needsSummary).indexOf
      .sendFeedback <
    (handleVoice dailyCount maxDaily duration maxDuration
        (.ok transcript) hasPrompt (.ok reply) (.error ()) needsSummary).indexOf
      .synthCall := by
  have h1 : ¬ maxDaily ≤ dailyCount := by omega
  have h2 : ¬ (duration ≠ 0 ∧ maxDuration < duration) := by
    rcases hdur with h | h <;> omega
  simp only [handleVoice, if_neg h1, if_neg h2, if_neg htr]
  cases hasPrompt <;> cases needsSummary <;> exact (by decide)

/-- Witness for C9 on concrete inputs. -/
theorem voice_turn_tts_failure_witness :
    VoiceEvent.sendFeedback ∈ handleVoice 0 20 10 120
      (.ok "hello") false (.ok "reply") (.error ()) true ∧
    VoiceEvent.sendTtsFallback ∈ handleVoice 0 20 10 120
      (.ok "hello") false (.ok "reply") (.error ()) true ∧
    VoiceEvent.sendVoiceReply ∉ handleVoice 0 20 10 120
      (.ok "hello") false (.ok "reply") (.error ()) true ∧
    VoiceEvent.sendErrorMsg ∉ handleVoice 0 20 10 120
      (.ok "hello") false (.ok "reply") (.error ()) true ∧
    (true = true →
      VoiceEvent.summaryHook ∈ handleVoice 0 20 10 120
        (.ok "hello") false (.ok "reply") (.error ()) true) ∧
    (handleVoice 0 20 10 120
        (.ok "hello") false (.ok "reply") (.error ()) true).count
      .sendFeedback = 1 ∧
    (handleVoice 0 20 10 120
        (.ok "hello") false (.ok "reply") (.error ()) true).count
      .synthCall = 1 ∧
    (handleVoice 0 20 10 120
        (.ok "hello") false (.ok "reply") (.error ()) true).indexOf
      .sendFeedback <
    (handleVoice 0 20 10 120
        (.ok "hello") false (.ok "reply") (.error ()) true).indexOf
      .synthCall :=
  voice_turn_tts_failure 0 20 10 120 "hello" "reply" false true
    (by decide) (Or.inr (by decide)) (by decide)

end Jiro
